import Mathlib

/-!
# Verification of the microservice API gateway against its specification

Shallow embedding of the gateway's TypeScript source:

* `RetryStrategy.shouldRetry` / the backoff delay (src/retry.ts)
* `RoundRobinBalancer.selectInstance` (src/load-balancer.ts)
* request/response header filters, `ApiGatewayError.fromStatus`,
  `ApiGateway.handleRequest`, `ApiGateway.getServiceResponse`,
  `ApiGateway.handleSuccessResponse`, `ApiGateway.handleErrResponse`,
  `ApiGateway.register`, `ApiGateway.attemptReregister` (api-gateway.ts)

Conventions: JS numbers used as counters/statuses are `Nat`; epoch-millisecond
clock readings are `Int`; header maps are association lists `List (String ×
String)` in `Object.entries` order; `undefined`-able values are `Option`;
thrown exceptions are `Except` errors; the external world (axios results,
`Date.now()` readings, jitter) enters as explicit parameters.
-/

namespace Gw

/-! ## Errors as values

The source dispatches on the runtime class of a caught error
(`AxiosError` with/without `response`/`request`, `ApiGatewayError`, anything
else).  We embed that taxonomy as an inductive. -/

/-- A backend `{code, message}` error object inside an `ApiResponse` envelope. -/
structure ErrorInfo where
  code : String
  message : Option String
  deriving Repr, DecidableEq

/-- Body of an HTTP response attached to an `AxiosError` (`err.response.data`):
`data?` payload (opaque) and `error?` which in the source may be a plain
string or a `{code, message}` object. -/
structure RespData where
  data : Option String
  error : Option (String ⊕ ErrorInfo)
  deriving Repr, DecidableEq

/-- `err.response`: the HTTP response carried by an `AxiosError`. -/
structure AxiosResp where
  status : Nat
  headers : List (String × String)
  data : RespData
  deriving Repr, DecidableEq

/-- The error taxonomy the gateway dispatches on:
* `axios code response request message` — an `AxiosError`: `code` is the
  transport code (`"ECONNABORTED"` on timeout), `response` the HTTP response
  if one arrived, `request` the stringified request object if one was sent;
* `apiGatewayError` — the gateway's own error class `{status, code, message, data}`;
* `other isError message` — any other thrown value (`isError`: instance of `Error`).
-/
inductive GwErr where
  | axios (code : Option String) (response : Option AxiosResp)
      (request : Option String) (message : String)
  | apiGatewayError (status : Nat) (code : String) (message : Option String)
      (data : Option String)
  | other (isError : Bool) (message : String)
  deriving Repr, DecidableEq

/-! ## RetryStrategy (src/retry.ts) -/

/-- `RetryStrategy` fields; `retryableStatus` keeps the JS `Set` as a list of
distinct statuses (only membership is consulted). -/
structure RetryStrategy where
  maxRetries : Nat
  baseDelay : Nat
  maxDelay : Nat
  retryableStatus : List Nat
  deriving Repr, DecidableEq

/-- Constructor defaults: `{maxRetries: 3, baseDelay: 1000, maxDelay: 5000,
retryableStatus: {500, 502, 503, 504}}`. -/
def defaultRetryStrategy : RetryStrategy :=
  { maxRetries := 3, baseDelay := 1000, maxDelay := 5000
    retryableStatus := [500, 502, 503, 504] }

/-- `RetryStrategy.shouldRetry(err, attempt)`, branch for branch:
1. `AxiosError` with `code === "ECONNABORTED"` → `attempt < maxRetries`;
2. `AxiosError` with a `response` → `attempt < maxRetries && retryableStatus.has(status)`;
3. `ApiGatewayError` → `attempt < maxRetries && retryableStatus.has(err.status)`;
4. anything else → `false`. -/
def shouldRetry (rs : RetryStrategy) (err : GwErr) (attempt : Nat) : Bool :=
  match err with
  | .axios code response _ _ =>
    if code = some "ECONNABORTED" then
      attempt < rs.maxRetries
    else
      match response with
      | some r => decide (attempt < rs.maxRetries) && rs.retryableStatus.contains r.status
      | none => false
  | .apiGatewayError status _ _ _ =>
      decide (attempt < rs.maxRetries) && rs.retryableStatus.contains status
  | .other _ _ => false

/-- The deterministic part of `RetryStrategy.delay(attempt)`:
`Math.min(maxDelay, baseDelay * Math.pow(2, attempt))`. -/
def exponentialDelay (rs : RetryStrategy) (attempt : Nat) : Nat :=
  min rs.maxDelay (rs.baseDelay * 2 ^ attempt)

/-- Total sleep duration of `RetryStrategy.delay(attempt)` given the sampled
jitter `j = Math.random() * 10`: `exponentialDelay + j`. -/
def delayDuration (rs : RetryStrategy) (attempt : Nat) (j : ℚ) : ℚ :=
  (exponentialDelay rs attempt : ℚ) + j

/-! Spec-side predicates for the retry claim, written from the
specification's words ("a transport timeout", "an HTTP error whose status is
in `retryableStatuses`") to compare with the source's `shouldRetry`. -/

/-- Modelled from the spec: "a transport timeout" — an `AxiosError` whose
transport code is `ECONNABORTED`. -/
def specIsTransportTimeout (err : GwErr) : Bool :=
  match err with
  | .axios code _ _ _ => code = some "ECONNABORTED"
  | _ => false

/-- Modelled from the spec: "an HTTP error whose status is in
`retryableStatuses`" — an `AxiosError` carrying a response with retryable
status. -/
def specIsRetryableHttp (rs : RetryStrategy) (err : GwErr) : Bool :=
  match err with
  | .axios _ (some r) _ _ => rs.retryableStatus.contains r.status
  | _ => false

/-- The third shape the source actually retries: the gateway's own
`ApiGatewayError` whose `status` field is in `retryableStatus`. -/
def isRetryableGatewayError (rs : RetryStrategy) (err : GwErr) : Bool :=
  match err with
  | .apiGatewayError status _ _ _ => rs.retryableStatus.contains status
  | _ => false

/-! ## Header filters (api-gateway.ts) -/

/-- JS `k.toLowerCase()`: lowercase the string character by character.
(Defined over the character list so that concrete instances reduce in the
kernel; extensionally `String.toLower`.) -/
def lowerString (s : String) : String := ⟨s.data.map Char.toLower⟩

/-- JS `s.startsWith(p)`: the first `p.length` characters of `s` are exactly
`p`.  (Defined over the character lists so that concrete instances reduce in
the kernel.) -/
def strStartsWith (s p : String) : Bool := s.data.take p.data.length == p.data

/-- `EXCLUDED_REQUEST_HEADERS` — the set consulted by `filterRequestHeaders`. -/
def EXCLUDED_REQUEST_HEADERS : List String :=
  ["host", "connection", "content-length", "transfer-encoding", "authorization"]

/-- `EXCLUDED_RESPONSE_HEADERS` — the set consulted by `filterResponseHeaders`
(the literal `"x-internal-"` entry is in the source set; the prefix test is a
separate clause of the filter). -/
def EXCLUDED_RESPONSE_HEADERS : List String :=
  ["connection", "keep-alive", "proxy-authenticate", "proxy-authorization",
   "te", "trailer", "transfer-encoding", "upgrade", "x-internal-"]

/-- `filterRequestHeaders(headers)`: keep an entry iff its lowercased key is
not in `EXCLUDED_REQUEST_HEADERS`; kept entries are copied unchanged. -/
def filterRequestHeaders (headers : List (String × String)) : List (String × String) :=
  headers.filter fun kv => !(EXCLUDED_REQUEST_HEADERS.contains (lowerString kv.fst))

/-- `filterResponseHeaders(headers)`: keep an entry iff its lowercased key
does not start with `"x-internal-"` and is not in
`EXCLUDED_RESPONSE_HEADERS`. -/
def filterResponseHeaders (headers : List (String × String)) : List (String × String) :=
  headers.filter fun kv =>
    !(strStartsWith (lowerString kv.fst) "x-internal-") &&
      !(EXCLUDED_RESPONSE_HEADERS.contains (lowerString kv.fst))

/-- The RFC 7230 hop-by-hop header set named by the specification. -/
def hopByHopHeaders : List String :=
  ["connection", "keep-alive", "proxy-authenticate", "proxy-authorization",
   "te", "trailer", "transfer-encoding", "upgrade"]

/-! ## Gateway status and `ApiGatewayError.fromStatus` -/

/-- `ApiGatewayStatus` — the five-valued status union type. -/
inductive GatewayStatus where
  | GATEWAY_STARTING
  | REGISTRY_HEALTH_CHECK_FAIL
  | GATEWAY_ACTIVE
  | SHUTTING_DOWN
  | ATTEMPTING_REREGISTRATION
  deriving Repr, DecidableEq, Fintype

/-- The status string a `GatewayStatus` value denotes on the wire. -/
def GatewayStatus.str : GatewayStatus → String
  | .GATEWAY_STARTING => "GATEWAY_STARTING"
  | .REGISTRY_HEALTH_CHECK_FAIL => "REGISTRY_HEALTH_CHECK_FAIL"
  | .GATEWAY_ACTIVE => "GATEWAY_ACTIVE"
  | .SHUTTING_DOWN => "SHUTTING_DOWN"
  | .ATTEMPTING_REREGISTRATION => "ATTEMPTING_REREGISTRATION"

/-- The message of `ApiGatewayError.fromStatus`'s `switch` (the `default`
branch covers `GATEWAY_STARTING`). -/
def fromStatusMessage : GatewayStatus → String
  | .ATTEMPTING_REREGISTRATION =>
      "Attempting to re-register with service registry. Check back shortly"
  | .REGISTRY_HEALTH_CHECK_FAIL =>
      "Health check on service registry failed, attempting retry. Check back shortly"
  | .SHUTTING_DOWN => "Gateway has encountered an error and is shutting down"
  | _ => "Gateway is starting. Please check back shortly"

/-- `ApiGatewayError.fromStatus(status)`:
`new ApiGatewayError(503, status, message)` as a `GwErr` value. -/
def fromStatus (s : GatewayStatus) : GwErr :=
  .apiGatewayError 503 s.str (some (fromStatusMessage s)) none

/-! ## Response envelopes and the two response shapers -/

/-- The `ApiResponse` envelope as the gateway emits it:
`{success, timestamp, data?, error?}` (absent JSON fields are `none`). -/
structure Envelope where
  success : Bool
  timestamp : Int
  data : Option String
  error : Option ErrorInfo
  deriving Repr, DecidableEq

/-- What a shaper writes to the express `Response`: the headers passed to
`res.set`, the HTTP status and the JSON envelope. -/
structure Emitted where
  status : Nat
  headers : List (String × String)
  body : Envelope
  deriving Repr, DecidableEq

/-- The backend's own `ApiResponse` envelope as parsed from a 2xx response
(`data` in `const { data, status, headers } = await axios.request(...)`). -/
structure BackendEnvelope where
  success : Bool
  timestamp : Int
  data : Option String
  deriving Repr, DecidableEq

/-- `handleSuccessResponse(res, status, data, headers)`: sets
`filterResponseHeaders(headers)` on the response and emits `status` with
envelope `{success: true, timestamp: Date.now(), data}`; `now` is the
`Date.now()` reading. -/
def handleSuccessResponse (now : Int) (status : Nat) (data : Option String)
    (headers : List (String × String)) : Emitted :=
  { status := status
    headers := filterResponseHeaders headers
    body := { success := true, timestamp := now, data := data, error := none } }

/-- The call site in `getServiceResponse`:
`this.handleSuccessResponse(res, status, data.data, headers)` — only the
`data` field of the backend envelope is passed on. -/
def processBackendSuccess (now : Int) (status : Nat) (b : BackendEnvelope)
    (headers : List (String × String)) : Emitted :=
  handleSuccessResponse now status b.data headers

/-- `handleErrResponse(res, err)`, branch for branch; `now` is the
`Date.now()` reading used for the envelope timestamp.  Note that in the
`err.response` branch the source sets the backend headers on the response
raw (`res.set(headers)`), without `filterResponseHeaders`. -/
def handleErrResponse (now : Int) (err : GwErr) : Emitted :=
  match err with
  | .axios _ (some r) _ _ =>
    let (code, message) :=
      match r.data.error with
      | some (.inl s) => ("SERVICE_ERROR", some s)
      | some (.inr e) => (e.code, e.message)
      | none => ("SERVICE_ERROR", some "Unknown error occured")
    { status := r.status
      headers := r.headers
      body := { success := false, timestamp := now, data := r.data.data
                error := some { code := code, message := message } } }
  | .axios _ none (some reqStr) _ =>
    { status := 502, headers := []
      body := { success := false, timestamp := now, data := none
                error := some { code := "GATEWAY_ERROR", message := some reqStr } } }
  | .axios _ none none message =>
    { status := 500, headers := []
      body := { success := false, timestamp := now, data := none
                error := some { code := "GATEWAY_ERROR", message := some message } } }
  | .apiGatewayError status code message data =>
    { status := status, headers := []
      body := { success := false, timestamp := now, data := data
                error := some { code := code, message := message } } }
  | .other _ message =>
    { status := 500, headers := []
      body := { success := false, timestamp := now, data := none
                error := some { code := "UNKNOWN_ERROR", message := some message } } }

/-! ## RoundRobinBalancer (src/load-balancer.ts)

The cursor map `serviceTypes : Map<string, number>` is an association list;
`mapGet`/`mapSet` are `Map.get`/`Map.set`. -/

/-- A registered backend instance (only the fields the gateway reads). -/
structure Instance where
  id : String
  serviceType : String
  host : String
  port : Nat
  healthy : Bool
  created : Int
  lastUpdated : Int
  deriving Repr, DecidableEq

/-- `Map.get` on the association-list model of `Map<string, number>`. -/
def mapGet (m : List (String × Nat)) (k : String) : Option Nat :=
  (m.find? fun p => p.fst == k).map Prod.snd

/-- `Map.set` on the association-list model of `Map<string, number>`. -/
def mapSet (m : List (String × Nat)) (k : String) (v : Nat) : List (String × Nat) :=
  match m with
  | [] => [(k, v)]
  | (k', v') :: rest => if k' == k then (k, v) :: rest else (k', v') :: mapSet rest k v

/-- `RoundRobinBalancer.selectInstance(instances)`:
take `type = instances[0].serviceType` (on an empty list the source throws a
`TypeError`, modelled as `none`); `idx = serviceTypes.get(type) ?? 0`,
clamped to `0` when `idx > instances.length - 1`; return `instances[idx]`
and store `(idx + 1) % instances.length`. -/
def selectInstance (st : List (String × Nat)) (instances : List Instance) :
    Option (Instance × List (String × Nat)) :=
  match instances with
  | [] => none
  | inst0 :: rest =>
    let all := inst0 :: rest
    let ty := inst0.serviceType
    let stored := (mapGet st ty).getD 0
    let idx := if stored > all.length - 1 then 0 else stored
    some (all.getD idx inst0, mapSet st ty ((idx + 1) % all.length))

/-- `k` successive `selectInstance` calls on the same list starting from the
fresh balancer state (empty map), returning the picks in order and the final
cursor map. -/
def rrRun (instances : List Instance) : Nat → List Instance × List (String × Nat)
  | 0 => ([], [])
  | k + 1 =>
    let (ps, st) := rrRun instances k
    match selectInstance st instances with
    | none => (ps, st)
    | some (p, st') => (ps ++ [p], st')

/-! ## `getServiceResponse`: forward with retry -/

/-- The outcome the `k`-th outbound `axios.request` attempt resolves to:
either a 2xx response (backend status, envelope, headers) or a thrown error
together with the `Date.now() - startTime` reading at the subsequent
total-timeout check. -/
inductive AttemptOutcome where
  | success (status : Nat) (body : BackendEnvelope) (headers : List (String × String))
  | failure (err : GwErr) (elapsed : Int)
  deriving Repr, DecidableEq

/-- How `getServiceResponse` leaves the request: a response written via one
of the two shapers, a thrown `ApiGatewayError` (the 504 total-timeout path),
or still looping after consuming every provided outcome. -/
inductive LoopResult where
  | responded (r : Emitted)
  | thrown (e : GwErr)
  | pending
  deriving Repr, DecidableEq

/-- The `while (true)` loop of `getServiceResponse`, iteration for iteration,
driven by the list of attempt outcomes: on success emit via
`handleSuccessResponse` with `data.data`; on failure emit the shaped error
when `shouldRetry` says stop, otherwise throw
`ApiGatewayError(504, "GATEWAY_TIMEOUT", "Request timed out")` when
`Date.now() - startTime >= totalTimeout`, otherwise `attempt++` and loop.
`now` is the `Date.now()` reading used by the shapers. -/
def getServiceLoop (rs : RetryStrategy) (totalTimeout : Int) (now : Int) :
    Nat → List AttemptOutcome → LoopResult
  | _, [] => .pending
  | _, .success status body headers :: _ =>
      .responded (processBackendSuccess now status body headers)
  | attempt, .failure err elapsed :: rest =>
      if !(shouldRetry rs err attempt) then .responded (handleErrResponse now err)
      else if elapsed ≥ totalTimeout then
        .thrown (.apiGatewayError 504 "GATEWAY_TIMEOUT" (some "Request timed out") none)
      else getServiceLoop rs totalTimeout now (attempt + 1) rest

/-- Number of outbound backend requests the loop issues before leaving. -/
def loopAttemptsUsed (rs : RetryStrategy) (totalTimeout : Int) :
    Nat → List AttemptOutcome → Nat
  | _, [] => 0
  | _, .success _ _ _ :: _ => 1
  | attempt, .failure err elapsed :: rest =>
      if !(shouldRetry rs err attempt) then 1
      else if elapsed ≥ totalTimeout then 1
      else 1 + loopAttemptsUsed rs totalTimeout (attempt + 1) rest

/-- `getServiceResponse(req, res, url)`: computes
`filteredHeaders = filterRequestHeaders(req.headers)` once, then runs the
retry loop from `attempt = 0`; also returns the header map sent on each
outbound backend request (the same `filteredHeaders` every attempt). -/
def getServiceResponse (rs : RetryStrategy) (totalTimeout : Int) (now : Int)
    (reqHeaders : List (String × String)) (outcomes : List AttemptOutcome) :
    LoopResult × List (List (String × String)) :=
  let filteredHeaders := filterRequestHeaders reqHeaders
  (getServiceLoop rs totalTimeout now 0 outcomes,
   List.replicate (loopAttemptsUsed rs totalTimeout 0 outcomes) filteredHeaders)

/-! ## `handleRequest` -/

/-- How a proxied request ends at the `handleRequest` boundary:
* `emitted r` — a response was written to the client;
* `unhandledRejection e` — an exception escaped `handleRequest`: the
  `return this.getServiceResponse(...)` inside the `try` is not awaited, so a
  rejection of that promise bypasses the `catch` and no response is written;
* `pending` — the retry loop is still running after all provided outcomes. -/
inductive ReqOutcome where
  | emitted (r : Emitted)
  | unhandledRejection (e : GwErr)
  | pending
  deriving Repr, DecidableEq

/-- Count of outbound calls `handleRequest` makes: one registry call
(`getServices`) plus the backend attempts. -/
structure OutboundCalls where
  registry : Nat
  backend : Nat
  deriving Repr, DecidableEq

/-- `handleRequest(req, res, serviceName, remaining)`:
1. if `this.status !== "GATEWAY_ACTIVE"`, throw `ApiGatewayError.fromStatus`
   — caught by the `catch` and shaped by `handleErrResponse`;
2. `await this.getServices(serviceName)` — a rejection here is caught and
   shaped (`servicesResult` is the call's result);
3. `this.loadBalancer.selectInstance(instances)` — on an empty list the
   `TypeError` is caught and shaped as `UNKNOWN_ERROR`;
4. `return this.getServiceResponse(...)` — *not awaited*, so a response
   written inside the loop reaches the client, but a thrown
   `ApiGatewayError` escapes as an unhandled rejection.
Returns the request outcome, the outbound call counts, and the header maps
sent to the backend. -/
def handleRequest (rs : RetryStrategy) (totalTimeout : Int)
    (status : GatewayStatus) (lbState : List (String × Nat)) (now : Int)
    (reqHeaders : List (String × String))
    (servicesResult : Except GwErr (List Instance))
    (outcomes : List AttemptOutcome) :
    ReqOutcome × OutboundCalls × List (List (String × String)) :=
  if status ≠ .GATEWAY_ACTIVE then
    (.emitted (handleErrResponse now (fromStatus status)), ⟨0, 0⟩, [])
  else
    match servicesResult with
    | .error e => (.emitted (handleErrResponse now e), ⟨1, 0⟩, [])
    | .ok instances =>
      match selectInstance lbState instances with
      | none =>
        (.emitted (handleErrResponse now
          (.other true "Cannot read properties of undefined")), ⟨1, 0⟩, [])
      | some _ =>
        let (res, sent) := getServiceResponse rs totalTimeout now reqHeaders outcomes
        match res with
        | .responded r => (.emitted r, ⟨1, sent.length⟩, sent)
        | .thrown e => (.unhandledRejection e, ⟨1, sent.length⟩, sent)
        | .pending => (.pending, ⟨1, sent.length⟩, sent)

/-! ## `register` -/

/-- The gateway state `register` may touch: `status`, `port`,
`registryHeaders` (the `{x-service-id, x-service-token}` credential pair) and
whether a health-check timer is pending. -/
structure GatewayState where
  status : GatewayStatus
  port : Option Nat
  registryHeaders : Option (String × String)
  healthCheckPending : Bool
  deriving Repr, DecidableEq

/-- The two ways `register` throws (rather than returning `false`):
`SERVICE_REGISTRATION_KEY` unset/empty, or `new URL(...)` rejecting the
configured registry URL. -/
inductive RegisterThrow where
  | missingRegistrationKey
  | invalidRegistryUrl
  deriving Repr, DecidableEq

/-- `register(port)`: throw when the env key is falsy; throw when the URL
constructor fails; otherwise POST `/service` — on resolution install the
credential, set `status = "GATEWAY_ACTIVE"` and `this.port`, schedule the
health check when `healthChecks` is on, and return `true`; on rejection
(any axios failure, `postResult = .error`) log and return `false`.
`key` is `process.env.SERVICE_REGISTRATION_KEY` (`some ""` is falsy). -/
def register (key : Option String) (urlValid : Bool)
    (postResult : Except Unit (String × String)) (healthChecks : Bool)
    (port : Nat) (s : GatewayState) : Except RegisterThrow (Bool × GatewayState) :=
  if key = none ∨ key = some "" then .error .missingRegistrationKey
  else if !urlValid then .error .invalidRegistryUrl
  else
    match postResult with
    | .ok (serviceId, token) =>
      .ok (true,
        { status := .GATEWAY_ACTIVE
          port := some port
          registryHeaders := some (serviceId, token)
          healthCheckPending := if healthChecks then true else s.healthCheckPending })
    | .error _ => .ok (false, s)

/-! ## `attemptReregister` -/

/-- One run of the `attemptReregister` `while (true)` loop.  `reg n` is
whether the `n`-th `this.register(this.port)` call (0-based) returns `true`.
Each iteration: if `register` succeeded, set `status = "GATEWAY_ACTIVE"` and
return; else if `attempts >= 3`, set `status = "SHUTTING_DOWN"`, emit
`SIGTERM` and return; else `attempts++` and `await delay(attempts)`.
Returns the final status, the number of `register` calls made, the list of
arguments passed to `delay`, and whether `SIGTERM` was emitted. -/
def attemptReregister (reg : Nat → Bool) (attempts calls : Nat)
    (delays : List Nat) : GatewayStatus × Nat × List Nat × Bool :=
  if reg calls then (.GATEWAY_ACTIVE, calls + 1, delays, false)
  else if attempts ≥ 3 then (.SHUTTING_DOWN, calls + 1, delays, true)
  else attemptReregister reg (attempts + 1) (calls + 1) (delays ++ [attempts + 1])
termination_by 3 - attempts
decreasing_by omega

/-- A register oracle on which every attempt fails. -/
def regAlwaysFails : Nat → Bool := fun _ => false

/-! ## Concrete values used by counterexamples and failing-input theorems -/

/-- An `ApiGatewayError` with status 500, as thrown in the gateway's own test
suite (`new ApiGatewayError(500, "Network error")`). -/
def c2Err : GwErr := .apiGatewayError 500 "Network error" none none

/-- Backend error-response headers: one internal header, one hop-by-hop
header, one ordinary debugging header. -/
def c6Headers : List (String × String) :=
  [("x-internal-debug", "1"), ("connection", "close"), ("x-request-id", "abc")]

/-- An `AxiosError` carrying a backend 500 response with `c6Headers`. -/
def c6Err : GwErr :=
  .axios none (some { status := 500, headers := c6Headers
                      data := { data := none, error := none } })
    (some "req") "Request failed with status code 500"

/-- A backend instance as returned by the registry. -/
def c7Instance : Instance :=
  { id := "1", serviceType := "products", host := "localhost", port := 3001
    healthy := true, created := 0, lastUpdated := 0 }

/-- An `AxiosError` carrying a backend 503 response — retryable under the
default configuration. -/
def c7Err : GwErr :=
  .axios none (some { status := 503, headers := []
                      data := { data := none, error := none } })
    (some "req") "Request failed with status code 503"

/-- A non-retryable backend error: a 400 response with an error envelope. -/
def c7NonRetryableErr : GwErr :=
  .axios none (some { status := 400, headers := []
                      data := { data := none
                                error := some (.inr { code := "VALIDATION_ERROR"
                                                      message := some "Invalid input" }) } })
    (some "req") "Request failed with status code 400"

/-- Three registered instances of one service, in registry order. -/
def rrA : Instance :=
  { id := "a", serviceType := "svc", host := "h1", port := 3001
    healthy := true, created := 0, lastUpdated := 0 }

/-- Second instance of the round-robin witness fleet. -/
def rrB : Instance :=
  { id := "b", serviceType := "svc", host := "h2", port := 3002
    healthy := true, created := 0, lastUpdated := 0 }

/-- Third instance of the round-robin witness fleet. -/
def rrC : Instance :=
  { id := "c", serviceType := "svc", host := "h3", port := 3003
    healthy := true, created := 0, lastUpdated := 0 }

/-- Inbound headers mixing kept and stripped keys (original casing). -/
def c5ReqHeaders : List (String × String) :=
  [("Content-Type", "application/json"), ("Authorization", "Bearer t"),
   ("Host", "gw"), ("X-Request-Id", "7")]

/-- Written from the specification's words ("the inbound header map with the
keys … removed under case-insensitive comparison"): drop every entry whose
lowercased key is in `keys`, keeping the others unchanged and in order. -/
def specRemoveKeysCI (keys : List String) (headers : List (String × String)) :
    List (String × String) :=
  headers.filter fun kv => decide (lowerString kv.fst ∉ keys)

/-! ## Helper lemmas -/

/-- Reading back the key just stored in the cursor map. -/
theorem mapGet_mapSet_self (m : List (String × Nat)) (k : String) (v : Nat) :
    mapGet (mapSet m k v) k = some v := by
  induction m with
  | nil => simp [mapSet, mapGet]
  | cons hd tl ih =>
    obtain ⟨k', v'⟩ := hd
    by_cases h : k' = k
    · subst h
      simp [mapSet, mapGet]
    · have hb : (k' == k) = false := by simp [h]
      have ih' := ih
      simp only [mapGet] at ih'
      simp [mapSet, hb, mapGet]
      simpa using ih'

/-- Closed form of `k` round-robin selections from a fresh balancer: the
picks are `instances[j % n]` in order and the stored cursor after `k ≥ 1`
calls is `k % n`. -/
theorem rrRun_spec (i0 : Instance) (rest : List Instance) (k : Nat) :
    (rrRun (i0 :: rest) k).1 =
      (List.range k).map (fun j => (i0 :: rest).getD (j % (i0 :: rest).length) i0) ∧
    (rrRun (i0 :: rest) k).2 =
      if k = 0 then [] else [(i0.serviceType, k % (i0 :: rest).length)] := by
  set n := (i0 :: rest).length with hn
  have hnpos : 0 < n := by simp [hn]
  induction k with
  | zero => simp [rrRun]
  | succ k ih =>
    obtain ⟨ih1, ih2⟩ := ih
    have hsel : selectInstance (rrRun (i0 :: rest) k).2 (i0 :: rest) =
        some ((i0 :: rest).getD (k % n) i0,
              [(i0.serviceType, (k + 1) % n)]) := by
      rw [ih2]
      by_cases hk : k = 0
      · subst hk
        have h0 : ¬ (0 > n - 1) := by omega
        simp [selectInstance, mapGet, h0, Nat.mod_self, hn, Nat.zero_mod,
          mapSet]
      · have hlt : k % n < n := Nat.mod_lt _ hnpos
        have hcl : ¬ (k % n > n - 1) := by omega
        simp only [if_neg hk, selectInstance, mapGet, List.find?_cons_of_pos,
          beq_self_eq_true, Option.map_some, Option.getD_some, mapSet]
        simp [hcl, ← hn, Nat.mod_add_mod]
    constructor
    · show (rrRun (i0 :: rest) (k + 1)).1 = _
      simp only [rrRun, hsel, ih1]
      rw [List.range_succ]
      simp [hn]
    · show (rrRun (i0 :: rest) (k + 1)).2 = _
      simp [rrRun, hsel]

end Gw

namespace Gw

/-- C1: whenever `handleRequest` runs with a status other than
`GATEWAY_ACTIVE`, the client receives a 503 response whose envelope has
`success = false` and `error.code` equal to the current status string with
the status-specific `fromStatus` message, no outbound registry or backend
call is made, and the message map is injective on non-active statuses (the
message really is status-specific). -/
theorem c1_gate_rejects_when_not_active (rs : RetryStrategy) (totalTimeout : Int)
    (st : GatewayStatus) (lbState : List (String × Nat)) (now : Int)
    (reqHeaders : List (String × String))
    (servicesResult : Except GwErr (List Instance))
    (outcomes : List AttemptOutcome) (h : st ≠ .GATEWAY_ACTIVE) :
    handleRequest rs totalTimeout st lbState now reqHeaders servicesResult outcomes =
      (.emitted
        { status := 503, headers := []
          body := { success := false, timestamp := now, data := none
                    error := some { code := st.str
                                    message := some (fromStatusMessage st) } } },
       ⟨0, 0⟩, []) ∧
    (∀ s1 s2 : GatewayStatus, s1 ≠ .GATEWAY_ACTIVE → s2 ≠ .GATEWAY_ACTIVE →
      fromStatusMessage s1 = fromStatusMessage s2 → s1 = s2) := by
  constructor
  · simp [handleRequest, h, fromStatus, handleErrResponse]
  · decide

/-- Witness for `c1_gate_rejects_when_not_active` on a fresh gateway
(`GATEWAY_STARTING`). -/
theorem c1_gate_witness :
    (GatewayStatus.GATEWAY_STARTING ≠ .GATEWAY_ACTIVE) ∧
    handleRequest defaultRetryStrategy 10000 .GATEWAY_STARTING [] 0 []
        (.ok [c7Instance]) [] =
      (.emitted
        { status := 503, headers := []
          body := { success := false, timestamp := 0, data := none
                    error := some { code := "GATEWAY_STARTING"
                                    message :=
                                      some "Gateway is starting. Please check back shortly" } } },
       ⟨0, 0⟩, []) := by
  refine ⟨by decide, ?_⟩
  exact (c1_gate_rejects_when_not_active defaultRetryStrategy 10000
    .GATEWAY_STARTING [] 0 [] (.ok [c7Instance]) [] (by decide)).1

/-- C3: when a forwarded attempt succeeds with backend status `s` and backend
envelope `b`, the client gets status `s` and exactly the envelope
`{success: true, timestamp: now, data: b.data}` with the gateway's fresh
clock reading; the backend envelope's own `timestamp` never influences the
result. -/
theorem c3_success_rewrap (rs : RetryStrategy) (totalTimeout now : Int)
    (attempt : Nat) (s : Nat) (b : BackendEnvelope)
    (hs : List (String × String)) (rest : List AttemptOutcome) :
    getServiceLoop rs totalTimeout now attempt (.success s b hs :: rest) =
      .responded
        { status := s, headers := filterResponseHeaders hs
          body := { success := true, timestamp := now, data := b.data
                    error := none } } ∧
    (∀ t' : Int, processBackendSuccess now s { b with timestamp := t' } hs =
      processBackendSuccess now s b hs) := by
  exact ⟨rfl, fun t' => rfl⟩

/-- C6: the error shaper does not pass backend headers through
`filterResponseHeaders`.  At a backend 500 whose headers are an internal
`x-internal-debug`, a hop-by-hop `connection` and a debugging
`x-request-id`, the code sets all three on the client response raw, while
the filter the claim requires would keep only `x-request-id`. -/
theorem c6_error_headers_unfiltered :
    (handleErrResponse 0 c6Err).headers = c6Headers ∧
    filterResponseHeaders c6Headers = [("x-request-id", "abc")] ∧
    (handleErrResponse 0 c6Err).headers ≠ filterResponseHeaders c6Headers := by
  refine ⟨rfl, by decide, by decide⟩

/-- C7: in the retry loop the non-retryable branch is checked before the
total-timeout budget, and on a retryable failure at elapsed ≥ `totalTimeout`
the loop throws `ApiGatewayError(504, "GATEWAY_TIMEOUT")` — but
`handleRequest` returns `this.getServiceResponse(...)` from inside its `try`
without awaiting it, so the rejection bypasses the `catch` and escapes as an
unhandled rejection: no 504 response is emitted to the client. -/
theorem c7_timeout_rejection_lost :
    shouldRetry defaultRetryStrategy c7Err 0 = true ∧
    getServiceLoop defaultRetryStrategy 10000 0 0 [.failure c7Err 10000] =
      .thrown (.apiGatewayError 504 "GATEWAY_TIMEOUT" (some "Request timed out") none) ∧
    getServiceLoop defaultRetryStrategy 10000 0 0 [.failure c7NonRetryableErr 99999] =
      .responded (handleErrResponse 0 c7NonRetryableErr) ∧
    handleRequest defaultRetryStrategy 10000 .GATEWAY_ACTIVE [] 0 []
        (.ok [c7Instance]) [.failure c7Err 10000] =
      (.unhandledRejection
        (.apiGatewayError 504 "GATEWAY_TIMEOUT" (some "Request timed out") none),
       ⟨1, 1⟩, [[]]) := by
  refine ⟨rfl, by decide, by decide, by decide⟩

/-- C2: the claim says `shouldRetry(e, a)` is false for every `e` that is
neither a transport timeout nor an HTTP error with retryable status.
Counterexample: an `ApiGatewayError` with status 500 is neither shape, yet
`shouldRetry` returns `true` at attempt 0 under the default configuration
(the source has a third branch for `err instanceof ApiGatewayError`). -/
theorem c2_counterexample :
    shouldRetry defaultRetryStrategy c2Err 0 = true ∧
    specIsTransportTimeout c2Err = false ∧
    specIsRetryableHttp defaultRetryStrategy c2Err = false := by
  refine ⟨rfl, rfl, rfl⟩

/-- C2 (amended): `shouldRetry(e, a) = true` iff `a < maxRetries` and `e` is
(a) a transport timeout, (b) an HTTP error whose response status is in
`retryableStatus`, or (c) an `ApiGatewayError` whose `status` field is in
`retryableStatus`; every other shape is never retried. -/
theorem c2_shouldRetry_amended (rs : RetryStrategy) (e : GwErr) (a : Nat) :
    shouldRetry rs e a = true ↔
      a < rs.maxRetries ∧
        (specIsTransportTimeout e = true ∨ specIsRetryableHttp rs e = true ∨
          isRetryableGatewayError rs e = true) := by
  cases e with
  | axios code response request message =>
    by_cases h : code = some "ECONNABORTED"
    · simp [shouldRetry, specIsTransportTimeout, specIsRetryableHttp,
        isRetryableGatewayError, h]
    · cases response with
      | none =>
        simp [shouldRetry, specIsTransportTimeout, specIsRetryableHttp,
          isRetryableGatewayError, h]
      | some r =>
        simp only [shouldRetry, specIsTransportTimeout, specIsRetryableHttp,
          isRetryableGatewayError, if_neg h, Bool.and_eq_true, decide_eq_true_eq]
        constructor
        · rintro ⟨h1, h2⟩
          exact ⟨h1, Or.inr (Or.inl h2)⟩
        · rintro ⟨h1, h2⟩
          refine ⟨h1, ?_⟩
          rcases h2 with h2 | h2 | h2
          · exact absurd h2 h
          · exact h2
          · simp at h2
  | apiGatewayError status code message data =>
    simp [shouldRetry, specIsTransportTimeout, specIsRetryableHttp,
      isRetryableGatewayError, and_comm]
  | other isError message =>
    simp [shouldRetry, specIsTransportTimeout, specIsRetryableHttp,
      isRetryableGatewayError]

/-- C8: the sleep duration of `delay(a)` is
`min(maxDelay, baseDelay * 2^a) + jitter`; with `jitter ∈ [0, 10)` it never
exceeds `maxDelay + 10` ms, and the deterministic component is non-decreasing
in the attempt number. -/
theorem c8_delay_bounds (rs : RetryStrategy) (a : Nat) (j : ℚ)
    (h0 : 0 ≤ j) (h1 : j < 10) :
    delayDuration rs a j = (min rs.maxDelay (rs.baseDelay * 2 ^ a) : ℚ) + j ∧
    delayDuration rs a j ≤ (rs.maxDelay : ℚ) + 10 ∧
    ∀ b : Nat, 1 ≤ b → exponentialDelay rs (b - 1) ≤ exponentialDelay rs b := by
  refine ⟨?_, ?_, ?_⟩
  · simp [delayDuration, exponentialDelay]
  · have hexp : exponentialDelay rs a ≤ rs.maxDelay := Nat.min_le_left _ _
    have hcast : (exponentialDelay rs a : ℚ) ≤ (rs.maxDelay : ℚ) := by
      exact_mod_cast hexp
    have := add_le_add hcast h1.le
    simpa [delayDuration] using this
  · intro b hb
    obtain ⟨c, rfl⟩ := Nat.exists_eq_add_of_le hb
    simp only [Nat.add_sub_cancel_left, exponentialDelay]
    refine min_le_min le_rfl ?_
    exact Nat.mul_le_mul_left _ (Nat.pow_le_pow_right (by norm_num) (by omega))

/-- Witness for `c8_delay_bounds` at the default configuration, attempt 2,
jitter 5. -/
theorem c8_delay_bounds_witness :
    (0 : ℚ) ≤ 5 ∧ (5 : ℚ) < 10 ∧
      delayDuration defaultRetryStrategy 2 5 ≤ (defaultRetryStrategy.maxDelay : ℚ) + 10 := by
  refine ⟨by norm_num, by norm_num,
    (c8_delay_bounds defaultRetryStrategy 2 5 (by norm_num) (by norm_num)).2.1⟩

/-- C10: `register` is atomic on failure — with the registration key set and
a well-formed URL, a failed POST makes `register` return `false` with the
gateway state (status, port, credential headers) exactly as before, and a
successful POST is the only way it returns `true`, installing the credential
and setting the status to `GATEWAY_ACTIVE`. -/
theorem c10_register_atomic (key : Option String)
    (hkey : key ≠ none ∧ key ≠ some "") (hc : Bool) (port : Nat)
    (s : GatewayState) :
    register key true (.error ()) hc port s = .ok (false, s) ∧
    (∀ sid tok, register key true (.ok (sid, tok)) hc port s =
      .ok (true,
        { status := .GATEWAY_ACTIVE, port := some port
          registryHeaders := some (sid, tok)
          healthCheckPending := if hc then true else s.healthCheckPending })) := by
  obtain ⟨h1, h2⟩ := hkey
  constructor
  · simp [register, h1, h2]
  · intro sid tok
    simp [register, h1, h2]

/-- C4: over `k` round-robin calls on the same non-empty unchanged list the
`j`-th pick (0-based `j`, i.e. 1-based `j+1`) is element `j mod n`, and after
any single call — from any cursor state, thanks to the wrap-to-0 clamp — the
stored cursor for the list's service type is in `[0, n)`. -/
theorem c4_round_robin (i0 : Instance) (rest : List Instance) (k j : Nat)
    (hjk : j < k) :
    ((rrRun (i0 :: rest) k).1)[j]? = (i0 :: rest)[j % (i0 :: rest).length]? ∧
    (∀ st p st', selectInstance st (i0 :: rest) = some (p, st') →
      ∃ c, mapGet st' i0.serviceType = some c ∧ c < (i0 :: rest).length) := by
  have hnpos : 0 < (i0 :: rest).length := by simp
  constructor
  · rw [(rrRun_spec i0 rest k).1]
    have hmod : j % (i0 :: rest).length < (i0 :: rest).length :=
      Nat.mod_lt _ hnpos
    have h1 : ((List.range k).map
        (fun j => (i0 :: rest).getD (j % (i0 :: rest).length) i0))[j]? =
        some ((i0 :: rest).getD (j % (i0 :: rest).length) i0) := by
      simp [List.getElem?_map, List.getElem?_range, hjk]
    rw [h1, List.getD_eq_getElem?_getD, List.getElem?_eq_getElem hmod]
    simp
  · intro st p st' hsel
    simp only [selectInstance, Option.some.injEq, Prod.mk.injEq] at hsel
    obtain ⟨-, hst⟩ := hsel
    subst hst
    exact ⟨_, mapGet_mapSet_self .., Nat.mod_lt _ hnpos⟩

/-- Witness for `c4_round_robin`: four calls over the three-instance fleet;
the fourth pick wraps to the first instance, and a call from a stale cursor
(`5`, beyond the list) clamps and stores an in-range cursor. -/
theorem c4_round_robin_witness :
    3 < 4 ∧
    ((rrRun (rrA :: [rrB, rrC]) 4).1)[3]? =
      (rrA :: [rrB, rrC])[3 % (rrA :: [rrB, rrC]).length]? ∧
    (∃ c, mapGet [("svc", 1)] rrA.serviceType = some c ∧
      c < (rrA :: [rrB, rrC]).length) := by
  have h := c4_round_robin rrA [rrB, rrC] 4 3 (by decide)
  exact ⟨by decide, h.1, h.2 [("svc", 5)] rrA [("svc", 1)] (by decide)⟩

/-- C5: the claim says every hop-by-hop header is absent from outbound
backend requests.  Counterexample: an inbound `keep-alive` header survives
`filterRequestHeaders` and is sent to the backend (only `host, connection,
content-length, transfer-encoding, authorization` are dropped). -/
theorem c5_counterexample :
    (getServiceResponse defaultRetryStrategy 10000 0 [("keep-alive", "timeout=5")]
        [.success 200 { success := true, timestamp := 1, data := none } []]).2 =
      [[("keep-alive", "timeout=5")]] ∧
    hopByHopHeaders.contains "keep-alive" = true := by
  exact ⟨by decide, by decide⟩

/-- C5 (amended): every header map sent on an outbound backend request is
exactly the inbound map with `host, connection, content-length,
transfer-encoding, authorization` removed under case-insensitive comparison
(kept entries retain casing and value); hence `authorization` and the
hop-by-hop headers `connection` and `transfer-encoding` never reach a
backend, while the remaining hop-by-hop names are not filtered. -/
theorem c5_request_filter_amended (rs : RetryStrategy) (totalTimeout now : Int)
    (reqHeaders : List (String × String)) (outcomes : List AttemptOutcome)
    (m : List (String × String))
    (hm : m ∈ (getServiceResponse rs totalTimeout now reqHeaders outcomes).2) :
    m = specRemoveKeysCI
        ["host", "connection", "content-length", "transfer-encoding", "authorization"]
        reqHeaders ∧
    ∀ kv ∈ m, kv ∈ reqHeaders ∧ lowerString kv.fst ≠ "authorization" ∧
      lowerString kv.fst ≠ "connection" ∧ lowerString kv.fst ≠ "transfer-encoding" := by
  have hm' : m = filterRequestHeaders reqHeaders := by
    have := hm
    simp only [getServiceResponse] at this
    exact List.eq_of_mem_replicate this
  have hfe : filterRequestHeaders reqHeaders =
      specRemoveKeysCI
        ["host", "connection", "content-length", "transfer-encoding", "authorization"]
        reqHeaders := by
    unfold filterRequestHeaders specRemoveKeysCI EXCLUDED_REQUEST_HEADERS
    apply List.filter_congr
    intro kv _
    simp
  constructor
  · rw [hm', hfe]
  · intro kv hkv
    rw [hm'] at hkv
    have hsplit := List.mem_filter.mp hkv
    have hnot : lowerString kv.fst ∉ EXCLUDED_REQUEST_HEADERS := by
      simpa using hsplit.2
    refine ⟨hsplit.1, ?_, ?_, ?_⟩ <;>
      (intro h; exact hnot (by simp [EXCLUDED_REQUEST_HEADERS, h]))

/-- Witness for `c5_request_filter_amended` on a request carrying
`Content-Type`, `Authorization`, `Host` and `X-Request-Id`. -/
theorem c5_request_filter_witness :
    [("Content-Type", "application/json"), ("X-Request-Id", "7")] ∈
      (getServiceResponse defaultRetryStrategy 10000 0 c5ReqHeaders
        [.success 200 { success := true, timestamp := 1, data := none } []]).2 ∧
    [("Content-Type", "application/json"), ("X-Request-Id", "7")] =
      specRemoveKeysCI
        ["host", "connection", "content-length", "transfer-encoding", "authorization"]
        c5ReqHeaders := by
  have hmem : [("Content-Type", "application/json"), ("X-Request-Id", "7")] ∈
      (getServiceResponse defaultRetryStrategy 10000 0 c5ReqHeaders
        [.success 200 { success := true, timestamp := 1, data := none } []]).2 := by
    decide
  exact ⟨hmem,
    (c5_request_filter_amended defaultRetryStrategy 10000 0 c5ReqHeaders
      [.success 200 { success := true, timestamp := 1, data := none } []] _ hmem).1⟩

/-- C9: the claim says at most 3 re-register attempts happen before the
transition to `SHUTTING_DOWN`.  Counterexample: when every `register` call
fails, the loop calls `register` 4 times (attempt counter values 0–3, the
`attempts >= 3` exit firing only after the fourth failure). -/
theorem c9_counterexample :
    attemptReregister regAlwaysFails 0 0 [] =
      (.SHUTTING_DOWN, 4, [1, 2, 3], true) ∧ ¬(4 ≤ 3) := by
  constructor
  · simp [attemptReregister, regAlwaysFails]
  · omega

/-- C9 (amended): the re-register loop always terminates, making at most 4
`register` calls; when every call fails it makes exactly 4, sleeps
`delay(1)`, `delay(2)`, `delay(3)` between them (exponential backoff), then
latches `SHUTTING_DOWN` and emits the termination signal. -/
theorem c9_reregister_amended (reg : Nat → Bool) :
    (attemptReregister reg 0 0 []).2.1 ≤ 4 ∧
    ((∀ i, reg i = false) →
      attemptReregister reg 0 0 [] = (.SHUTTING_DOWN, 4, [1, 2, 3], true)) := by
  constructor
  · cases h0 : reg 0 <;> cases h1 : reg 1 <;> cases h2 : reg 2 <;>
      cases h3 : reg 3 <;> simp [attemptReregister, h0, h1, h2, h3]
  · intro hall
    simp [attemptReregister, hall 0, hall 1, hall 2, hall 3]

/-- Witness for `c9_reregister_amended` on the always-failing register
oracle. -/
theorem c9_reregister_witness :
    (attemptReregister regAlwaysFails 0 0 []).2.1 ≤ 4 ∧
    attemptReregister regAlwaysFails 0 0 [] = (.SHUTTING_DOWN, 4, [1, 2, 3], true) :=
  ⟨(c9_reregister_amended regAlwaysFails).1,
   (c9_reregister_amended regAlwaysFails).2 (fun _ => rfl)⟩

/-- Witness for `c10_register_atomic` with key `"abc123"`, health checks on,
port 3001, from the freshly-constructed state. -/
theorem c10_register_atomic_witness :
    register (some "abc123") true (.error ()) true 3001
        ⟨.GATEWAY_STARTING, none, none, false⟩ =
      .ok (false, ⟨.GATEWAY_STARTING, none, none, false⟩) ∧
    register (some "abc123") true (.ok ("id1", "tok1")) true 3001
        ⟨.GATEWAY_STARTING, none, none, false⟩ =
      .ok (true, ⟨.GATEWAY_ACTIVE, some 3001, some ("id1", "tok1"), true⟩) := by
  have h := c10_register_atomic (some "abc123") (by simp) true 3001
    ⟨.GATEWAY_STARTING, none, none, false⟩
  exact ⟨h.1, h.2 "id1" "tok1"⟩

end Gw
